import Mathlib

/-!
Shallow embedding of the persona-provisioning application:
the sign-up workflow (src/pages/SignUp.tsx), the authenticated
create-persona workflow (src/pages/CreatePersona.tsx), the account
visibility toggle (Account component), the public persona listing
(PublicPersonas component), and the store schema with its row-level
policies (supabase migration).  External services (identity provider,
voice-agent provisioner, store acknowledgements) are modelled as
explicit inputs; each workflow returns its user-visible outcome
together with the ordered list of remote calls it issued.
-/

namespace ProPersona

/-! ## Derived URL templates

SignUp.tsx lines 163-164 and CreatePersona.tsx lines 128-129 each build
the avatar URL and the conversation link by string interpolation.  The
literals are kept separately per entry point, exactly as in the source.
-/

/-- Whitespace trimming at both ends, modelling the javascript
String.prototype.trim used by both submission handlers.  It is defined by
structural recursion over the character list so that it evaluates inside
the kernel. -/
def strTrim (s : String) : String :=
  ⟨((s.data.dropWhile Char.isWhitespace).reverse.dropWhile Char.isWhitespace).reverse⟩

/-- SignUp.tsx line 163: avatar URL derived from the identity id. -/
def signUpAvatarUrl (uid : String) : String :=
  "https://api.dicebear.com/7.x/pixel-art/svg?seed=" ++ uid ++ "&scale=100"

/-- SignUp.tsx line 164: conversation link derived from the agent id. -/
def signUpConversationLink (agentId : String) : String :=
  "https://elevenlabs.io/app/talk-to?agent_id=" ++ agentId

/-- CreatePersona.tsx line 128: avatar URL derived from the identity id. -/
def createPersonaAvatarUrl (uid : String) : String :=
  "https://api.dicebear.com/7.x/pixel-art/svg?seed=" ++ uid ++ "&scale=100"

/-- CreatePersona.tsx line 129: conversation link derived from the agent id. -/
def createPersonaConversationLink (agentId : String) : String :=
  "https://elevenlabs.io/app/talk-to?agent_id=" ++ agentId

/-- PublicPersonas component line 46: conversation link derived client-side. -/
def publicListingConversationLink (agentId : String) : String :=
  "https://elevenlabs.io/app/talk-to?agent_id=" ++ agentId

/-! ## Store schema: the personas table and its row-level policies -/

/-- A row of public.personas (migration lines 29-39).  Timestamps are
modelled as natural numbers. -/
structure PersonaRow where
  id : String
  user_id : String
  is_public : Bool
  elevenlabs_api_key : Option String
  agent_id : Option String
  conversation_link : Option String
  avatar_url : Option String
  created_at : Nat
  updated_at : Nat
deriving DecidableEq, Repr

/-- The columns of public.personas. -/
inductive PersonaField where
  | id
  | user_id
  | is_public
  | elevenlabs_api_key
  | agent_id
  | conversation_link
  | avatar_url
  | created_at
  | updated_at
deriving DecidableEq, Repr

/-- A column value of public.personas. -/
inductive FieldVal where
  | str (s : String)
  | optStr (s : Option String)
  | boolean (b : Bool)
  | time (t : Nat)
deriving DecidableEq, Repr

/-- Column lookup in a personas row. -/
def personaGetField (r : PersonaRow) : PersonaField → FieldVal
  | .id => .str r.id
  | .user_id => .str r.user_id
  | .is_public => .boolean r.is_public
  | .elevenlabs_api_key => .optStr r.elevenlabs_api_key
  | .agent_id => .optStr r.agent_id
  | .conversation_link => .optStr r.conversation_link
  | .avatar_url => .optStr r.avatar_url
  | .created_at => .time r.created_at
  | .updated_at => .time r.updated_at

/-- SELECT visibility of a personas row (migration lines 45-52): the two
permissive policies are disjoined.  The caller is the authenticated
identity id, or none when anonymous.  Postgres row-level security gates
whole rows, so visibility does not depend on the column requested. -/
def personaSelectVisible (caller : Option String) (r : PersonaRow) : Bool :=
  (match caller with
   | some u => decide (u = r.user_id)
   | none => false) || r.is_public

/-- Reading one column of one row under the row-level policies: any
column of a visible row is readable, no column of an invisible row is. -/
def readPersonaField (caller : Option String) (r : PersonaRow) (fld : PersonaField) :
    Option FieldVal :=
  if personaSelectVisible caller r then some (personaGetField r fld) else none

/-- The columns requested by the public-listing query
(PublicPersonas component line 28: select of id, avatar_url, agent_id). -/
def publicListingSelectColumns : List PersonaField :=
  [.id, .avatar_url, .agent_id]

/-- UPDATE of is_public on one row, as issued by the Account component
(update of is_public filtered by id) combined with the row-level UPDATE
policy (migration lines 60-62, owner only) and the updated_at trigger
(migration lines 84-87). -/
def updRowIsPublic (caller pid : String) (b : Bool) (now : Nat) (r : PersonaRow) : PersonaRow :=
  if r.id = pid ∧ r.user_id = caller then
    { r with is_public := b, updated_at := now }
  else r

/-- The visibility UPDATE applied to the whole personas table. -/
def updatePersonaIsPublic (caller pid : String) (b : Bool) (now : Nat)
    (rows : List PersonaRow) : List PersonaRow :=
  rows.map (updRowIsPublic caller pid b now)

/-- Store-layer default of personas.is_public (migration line 32). -/
def personasIsPublicDefault : Bool := false

/-! ## Remote calls and external-service responses -/

/-- The insert payload sent to public.personas by either entry point. -/
structure PersonaInsertRow where
  user_id : String
  is_public : Bool
  elevenlabs_api_key : String
  agent_id : String
  conversation_link : String
  avatar_url : String
deriving DecidableEq, Repr

/-- A remote call issued by one of the workflows, in issue order. -/
inductive Call where
  | authSignUp (email password firstName lastName : String)
  | invokeCreateAgent (resumeText firstName lastName apiKey : String)
  | profileUpdate (userId agentId link : String)
  | personaInsert (row : PersonaInsertRow)
  | profileSelect (userId : String)
deriving DecidableEq, Repr

/-- Response of the identity provider to auth.signUp. -/
inductive AuthResult where
  | err (message : String)
  | okUser (userId : String)
  | okNoUser
deriving DecidableEq, Repr

/-- Response of the create-agent edge function. -/
inductive AgentResult where
  | err (message : String)
  | ok (agentId : String)
deriving DecidableEq, Repr

/-- The persona-insert rows among an issued call list. -/
def insertedRows (calls : List Call) : List PersonaInsertRow :=
  calls.filterMap (fun c =>
    match c with
    | .personaInsert r => some r
    | _ => none)

def isProfileUpdateCall : Call → Bool
  | .profileUpdate _ _ _ => true
  | _ => false

def isPersonaInsertCall : Call → Bool
  | .personaInsert _ => true
  | _ => false

/-- Whether some call satisfying p is issued strictly before some later
call satisfying q. -/
def precedes (p q : Call → Bool) : List Call → Bool
  | [] => false
  | c :: rest => if p c then rest.any q else precedes p q rest

/-! ## The sign-up entry point (SignUp.tsx handleSubmit, lines 78-209) -/

/-- The sign-up form state at submission time.  isPublic holds the
visibility radio-group string, initially the value of
signUpInitialVisibility. -/
structure SignUpForm where
  email : String
  password : String
  firstName : String
  lastName : String
  resumeText : String
  elevenLabsApiKey : String
  isPublic : String
deriving DecidableEq, Repr

/-- Initial value of the visibility selection on the sign-up page
(SignUp.tsx line 31). -/
def signUpInitialVisibility : String := "public"

/-- Field-indexed messages produced by the zod schema (SignUp.tsx lines
16-21).  The email shape test is performed inside the external zod
library; its verdict enters the embedding as the boolean emailOk.  The
remaining three constraints are length bounds checked here exactly as
declared. -/
def signUpSchemaErrors (emailOk : Bool) (f : SignUpForm) : List (String × String) :=
  (if emailOk then [] else [("email", "Please enter a valid email address")]) ++
  (if 8 ≤ f.password.length then [] else [("password", "Password must be at least 8 characters")]) ++
  (if 1 ≤ f.firstName.length then [] else [("firstName", "First name is required")]) ++
  (if 1 ≤ f.lastName.length then [] else [("lastName", "Last name is required")])

/-- External-service responses observed by one sign-up run. -/
structure SignUpEnv where
  auth : AuthResult
  agent : AgentResult
  profileUpdateError : Option String
  personaInsertError : Option String
deriving DecidableEq, Repr

/-- User-visible outcome of one sign-up submission. -/
inductive SignUpOutcome where
  | validationErrors (errs : List (String × String))
  | resumeRequired
  | apiKeyRequired
  | signUpFailed (description : String)
  | checkEmail
  | personaErrorShown (description : String)
  | accountCreated
deriving DecidableEq, Repr

/-- Exact provider message special-cased at SignUp.tsx line 130. -/
def dupAuthMessage : String := "User already registered"

/-- Message displayed for the duplicate-account case (SignUp.tsx line 131). -/
def dupAuthDisplay : String := "An account with this email already exists. Please sign in."

/-- Description shown on identity-creation failure (SignUp.tsx lines 130-132). -/
def displayAuthError (m : String) : String :=
  if m = dupAuthMessage then dupAuthDisplay else m

/-- Description shown by the catch branch (SignUp.tsx line 197): the error
message, with a fallback when the message is empty. -/
def errDesc (m : String) : String :=
  if m = "" then "An unexpected error occurred." else m

/-- The sign-up submission handler (SignUp.tsx lines 78-209), returning
the user-visible outcome and the ordered remote calls issued. -/
def signUpHandleSubmit (emailOk : Bool) (f : SignUpForm) (env : SignUpEnv) :
    SignUpOutcome × List Call :=
  let errs := signUpSchemaErrors emailOk f
  if errs = [] then
    if strTrim f.resumeText = "" then (.resumeRequired, [])
    else if f.elevenLabsApiKey = "" then (.apiKeyRequired, [])
    else
      let callsAuth := [Call.authSignUp f.email f.password f.firstName f.lastName]
      match env.auth with
      | .err m => (.signUpFailed (displayAuthError m), callsAuth)
      | .okNoUser => (.checkEmail, callsAuth)
      | .okUser uid =>
        let callsAgent := callsAuth ++
          [Call.invokeCreateAgent f.resumeText f.firstName f.lastName f.elevenLabsApiKey]
        match env.agent with
        | .err m => (.personaErrorShown (errDesc m), callsAgent)
        | .ok aid =>
          let av := signUpAvatarUrl uid
          let link := signUpConversationLink aid
          let callsInsert := callsAgent ++
            [Call.profileUpdate uid aid link,
             Call.personaInsert
               ⟨uid, decide (f.isPublic = "public"), f.elevenLabsApiKey, aid, link, av⟩]
          match env.personaInsertError with
          | some m => (.personaErrorShown (errDesc m), callsInsert)
          | none => (.accountCreated, callsInsert)
  else (.validationErrors errs, [])

/-- Whether an outcome is a local validation failure that identifies the
offending field: either the field-indexed error map of the zod schema is
non-empty, or one of the two field-specific blocking toasts (resume
required, API key required) was shown. -/
def isFieldValidationFailure : SignUpOutcome → Bool
  | .validationErrors errs => decide (errs ≠ [])
  | .resumeRequired => true
  | .apiKeyRequired => true
  | _ => false

/-! ## The authenticated create-persona entry point
(CreatePersona.tsx handleSubmit, lines 73-174) -/

/-- The create-persona form state at submission time. -/
structure CreatePersonaForm where
  resumeText : String
  elevenLabsApiKey : String
  isPublic : String
deriving DecidableEq, Repr

/-- Initial value of the visibility selection on the create-persona page
(CreatePersona.tsx line 24). -/
def createPersonaInitialVisibility : String := "private"

/-- The profile columns selected by the entry point (first_name, last_name). -/
structure ProfileRecord where
  first_name : Option String
  last_name : Option String
deriving DecidableEq, Repr

/-- External-service responses observed by one create-persona run.
profile is the data field of the profiles select, none when the select
errored or returned no row. -/
structure CreatePersonaEnv where
  profile : Option ProfileRecord
  agent : AgentResult
  personaInsertError : Option String
  profileUpdateError : Option String
deriving DecidableEq, Repr

/-- User-visible outcome of one create-persona submission. -/
inductive CreateOutcome where
  | resumeRequired
  | apiKeyRequired
  | notAuthenticated
  | errorShown (message : String)
  | success
deriving DecidableEq, Repr

/-- A nullable string that javascript treats as falsy: absent or empty. -/
def jsFalsyOptStr : Option String → Bool
  | none => true
  | some s => decide (s = "")

/-- The name guard at CreatePersona.tsx line 113: the profile is missing,
or either name is absent or empty. -/
def profileNamesMissing : Option ProfileRecord → Bool
  | none => true
  | some p => jsFalsyOptStr p.first_name || jsFalsyOptStr p.last_name

/-- Error message thrown by the name guard (CreatePersona.tsx line 114). -/
def profileNamesMessage : String := "Please ensure your profile has a first and last name."

/-- The first name read from the selected profile. -/
def profileFirstName : Option ProfileRecord → String
  | some p => p.first_name.getD ""
  | none => ""

/-- The last name read from the selected profile. -/
def profileLastName : Option ProfileRecord → String
  | some p => p.last_name.getD ""
  | none => ""

/-- The create-persona submission handler (CreatePersona.tsx lines
73-174), returning the user-visible outcome and the ordered remote calls
issued.  user is the authenticated identity id, none when signed out. -/
def createPersonaHandleSubmit (f : CreatePersonaForm) (user : Option String)
    (env : CreatePersonaEnv) : CreateOutcome × List Call :=
  if strTrim f.resumeText = "" then (.resumeRequired, [])
  else if strTrim f.elevenLabsApiKey = "" then (.apiKeyRequired, [])
  else
    match user with
    | none => (.notAuthenticated, [])
    | some uid =>
      let callsProfile := [Call.profileSelect uid]
      if profileNamesMissing env.profile then
        (.errorShown profileNamesMessage, callsProfile)
      else
        let fn := profileFirstName env.profile
        let ln := profileLastName env.profile
        let callsAgent := callsProfile ++
          [Call.invokeCreateAgent f.resumeText fn ln f.elevenLabsApiKey]
        match env.agent with
        | .err m => (.errorShown m, callsAgent)
        | .ok aid =>
          let av := createPersonaAvatarUrl uid
          let link := createPersonaConversationLink aid
          let callsInsert := callsAgent ++
            [Call.personaInsert
              ⟨uid, decide (f.isPublic = "public"), f.elevenLabsApiKey, aid, link, av⟩]
          match env.personaInsertError with
          | some m => (.errorShown m, callsInsert)
          | none => (.success, callsInsert ++ [Call.profileUpdate uid aid link])

/-! ## The visibility toggle (Account component handleVisibilitySave) -/

/-- The locally displayed persona state in the Account component. -/
structure AccountPersonaView where
  id : String
  is_public : Bool
deriving DecidableEq, Repr

/-- Toast shown by the visibility save handler. -/
inductive VisibilityToast where
  | noToast
  | errorCouldNotUpdate
  | saved
deriving DecidableEq, Repr

/-- The save handler of the Account component: given the displayed
persona, the selected visibility string, and whether the store
acknowledged the update with an error, it returns the new displayed
persona, the toast, and the update request issued (persona id and new
is_public value), if any. -/
def handleVisibilitySave (persona : Option AccountPersonaView) (visibility : String)
    (updateFailed : Bool) :
    Option AccountPersonaView × VisibilityToast × Option (String × Bool) :=
  match persona with
  | none => (none, .noToast, none)
  | some p =>
    let req := (p.id, decide (visibility = "public"))
    if updateFailed then (some p, .errorCouldNotUpdate, some req)
    else (some { p with is_public := decide (visibility = "public") }, .saved, some req)

/-! ## The public persona listing (PublicPersonas component) -/

/-- A row as returned by the listing query, which selects only id,
avatar_url and agent_id from public rows. -/
structure FetchedPersonaRow where
  id : String
  avatar_url : Option String
  agent_id : Option String
deriving DecidableEq, Repr

/-- A displayed listing entry. -/
structure PublicPersonaEntry where
  id : String
  avatar_url : Option String
  agent_id : Option String
  conversation_link : String
deriving DecidableEq, Repr

/-- Javascript truthiness of the agent_id column: null and the empty
string are both falsy. -/
def truthyAgentId : Option String → Bool
  | none => false
  | some s => decide (s ≠ "")

/-- The filter-and-map of the fetched rows (PublicPersonas component
lines 40-47). -/
def formatPublicPersonas (data : List FetchedPersonaRow) : List PublicPersonaEntry :=
  (data.filter (fun p => truthyAgentId p.agent_id)).map (fun p =>
    { id := p.id
      avatar_url := p.avatar_url
      agent_id := p.agent_id
      conversation_link := publicListingConversationLink (p.agent_id.getD "") })

/-- The store-side listing query (PublicPersonas component lines 26-29):
rows with is_public = true, projected to the three selected columns.
For an anonymous caller the row-level policies make exactly these rows
visible, so the policy filter and the query filter coincide. -/
def publicListingQuery (rows : List PersonaRow) : List FetchedPersonaRow :=
  (rows.filter (fun r => r.is_public)).map (fun r => ⟨r.id, r.avatar_url, r.agent_id⟩)

/-- The whole fetch effect (PublicPersonas component lines 22-52): on a
fetch error the displayed list is empty and an error notice is shown;
otherwise the formatted rows are displayed.  The boolean records whether
the error notice was shown. -/
def fetchPublicPersonas (result : Except String (List FetchedPersonaRow)) :
    List PublicPersonaEntry × Bool :=
  match result with
  | .error _ => ([], true)
  | .ok data => (formatPublicPersonas data, false)

/-! ## Theorems -/

/-- C1: the claim as stated is false.  The row-level SELECT policies gate
whole rows, so a caller other than the owner can read the stored
elevenlabs_api_key column of any Persona row with is_public = true. -/
theorem C1_counterexample :
    (⟨"p1", "owner", true, some ("sk-secret"), some ("a1"), none, none, 0, 0⟩ :
        PersonaRow).is_public = true ∧
    (some ("intruder") : Option String) ≠ some ("owner") ∧
    readPersonaField (some ("intruder"))
        ⟨"p1", "owner", true, some ("sk-secret"), some ("a1"), none, none, 0, 0⟩
        PersonaField.elevenlabs_api_key = some (FieldVal.optStr (some ("sk-secret"))) :=
  ⟨rfl, by decide, rfl⟩

/-- C1 (amended): under the row-level policies any caller can read every
column, including elevenlabs_api_key, of a Persona row with
is_public = true; the restriction to the public-safe columns id,
avatar_url, agent_id exists only in the client listing query, whose
selected column list does not contain elevenlabs_api_key. -/
theorem C1_amended (r : PersonaRow) (caller : Option String) (fld : PersonaField)
    (h : r.is_public = true) :
    readPersonaField caller r fld = some (personaGetField r fld) ∧
    PersonaField.elevenlabs_api_key ∉ publicListingSelectColumns := by
  constructor
  · unfold readPersonaField personaSelectVisible
    rw [h]
    simp
  · decide

/-- Witness for C1 (amended) at a concrete public row and anonymous caller. -/
theorem C1_amended_witness :
    readPersonaField none ⟨"p1", "o", true, some ("k"), none, none, none, 0, 0⟩
        PersonaField.elevenlabs_api_key = some (FieldVal.optStr (some ("k"))) ∧
    PersonaField.elevenlabs_api_key ∉ publicListingSelectColumns :=
  C1_amended ⟨"p1", "o", true, some ("k"), none, none, none, 0, 0⟩ none
    PersonaField.elevenlabs_api_key rfl

/-- C2: both provisioning entry points derive the conversation link and
the avatar URL by the same fixed templates, applied to the agent id and
the identity id; the rows they actually insert carry exactly these
strings, and the literal examples of the spec hold. -/
theorem C2_holds (a u : String) :
    signUpConversationLink a = "https://elevenlabs.io/app/talk-to?agent_id=" ++ a ∧
    createPersonaConversationLink a = "https://elevenlabs.io/app/talk-to?agent_id=" ++ a ∧
    signUpAvatarUrl u = "https://api.dicebear.com/7.x/pixel-art/svg?seed=" ++ u ++ "&scale=100" ∧
    createPersonaAvatarUrl u =
      "https://api.dicebear.com/7.x/pixel-art/svg?seed=" ++ u ++ "&scale=100" ∧
    (insertedRows (signUpHandleSubmit true
        ⟨"e@x.y", "password1", "J", "D", "resume", "key", "public"⟩
        ⟨AuthResult.okUser u, AgentResult.ok a, none, none⟩).2).map
        (fun r => (r.conversation_link, r.avatar_url)) =
      [("https://elevenlabs.io/app/talk-to?agent_id=" ++ a,
        "https://api.dicebear.com/7.x/pixel-art/svg?seed=" ++ u ++ "&scale=100")] ∧
    (insertedRows (createPersonaHandleSubmit ⟨"resume", "key", "private"⟩ (some u)
        ⟨some ⟨some ("J"), some ("D")⟩, AgentResult.ok a, none, none⟩).2).map
        (fun r => (r.conversation_link, r.avatar_url)) =
      [("https://elevenlabs.io/app/talk-to?agent_id=" ++ a,
        "https://api.dicebear.com/7.x/pixel-art/svg?seed=" ++ u ++ "&scale=100")] ∧
    signUpConversationLink ("abc123") = "https://elevenlabs.io/app/talk-to?agent_id=abc123" ∧
    signUpAvatarUrl ("u1") = "https://api.dicebear.com/7.x/pixel-art/svg?seed=u1&scale=100" ∧
    createPersonaConversationLink ("abc123") =
      "https://elevenlabs.io/app/talk-to?agent_id=abc123" ∧
    createPersonaAvatarUrl ("u1") =
      "https://api.dicebear.com/7.x/pixel-art/svg?seed=u1&scale=100" := by
  refine ⟨rfl, rfl, rfl, rfl, ?_, ?_, rfl, rfl, rfl, rfl⟩
  · have h1 : signUpSchemaErrors true
        ⟨"e@x.y", "password1", "J", "D", "resume", "key", "public"⟩ = [] := by decide
    simp [signUpHandleSubmit, h1, insertedRows, signUpConversationLink, signUpAvatarUrl,
      (by decide : ¬(strTrim ("resume") = "")),
      (by decide : ¬(("key" : String) = ""))]
  · simp [createPersonaHandleSubmit, insertedRows, profileNamesMissing, jsFalsyOptStr,
      profileFirstName, profileLastName, createPersonaConversationLink, createPersonaAvatarUrl,
      (by decide : ¬(strTrim ("resume") = "")),
      (by decide : ¬(strTrim ("key") = ""))]

/-- The zod schema accepts exactly when the email verdict is positive and
the three length bounds hold. -/
theorem signUpSchemaErrors_eq_nil (emailOk : Bool) (f : SignUpForm) :
    signUpSchemaErrors emailOk f = [] ↔
      (emailOk = true ∧ 8 ≤ f.password.length ∧
        1 ≤ f.firstName.length ∧ 1 ≤ f.lastName.length) := by
  unfold signUpSchemaErrors
  split_ifs <;> simp_all

/-- C3: a submission violating any local structural constraint (bad email
shape, short password, empty first or last name, empty trimmed resume
text, empty API key) issues no remote call at all and yields a
field-identifying validation failure. -/
theorem C3_holds (emailOk : Bool) (f : SignUpForm) (env : SignUpEnv)
    (h : emailOk = false ∨ f.password.length < 8 ∨ f.firstName.length = 0 ∨
         f.lastName.length = 0 ∨ strTrim f.resumeText = "" ∨ f.elevenLabsApiKey = "") :
    (signUpHandleSubmit emailOk f env).2 = [] ∧
    isFieldValidationFailure (signUpHandleSubmit emailOk f env).1 = true := by
  by_cases hE : signUpSchemaErrors emailOk f = []
  · have hOk := (signUpSchemaErrors_eq_nil emailOk f).mp hE
    rcases h with h | h | h | h | h | h
    · rw [hOk.1] at h
      exact absurd h (by simp)
    · exact absurd hOk.2.1 (by omega)
    · exact absurd hOk.2.2.1 (by omega)
    · exact absurd hOk.2.2.2 (by omega)
    · simp [signUpHandleSubmit, hE, h, isFieldValidationFailure]
    · by_cases hR : strTrim f.resumeText = ""
      · simp [signUpHandleSubmit, hE, hR, isFieldValidationFailure]
      · simp [signUpHandleSubmit, hE, hR, h, isFieldValidationFailure]
  · simp [signUpHandleSubmit, hE, isFieldValidationFailure]

/-- Witness for C3: a password of five characters is rejected with no
remote call. -/
theorem C3_witness :
    (signUpHandleSubmit true ⟨"a@b.c", "short", "J", "D", "r", "k", "public"⟩
        ⟨AuthResult.okUser ("u"), AgentResult.ok ("x"), none, none⟩).2 = [] ∧
    isFieldValidationFailure
      (signUpHandleSubmit true ⟨"a@b.c", "short", "J", "D", "r", "k", "public"⟩
        ⟨AuthResult.okUser ("u"), AgentResult.ok ("x"), none, none⟩).1 = true :=
  C3_holds true ⟨"a@b.c", "short", "J", "D", "r", "k", "public"⟩
    ⟨AuthResult.okUser ("u"), AgentResult.ok ("x"), none, none⟩
    (Or.inr (Or.inl (by decide)))

/-- C4: when identity creation succeeds and agent provisioning fails, the
error is reported to the user and the run issued exactly the
identity-creation call and the agent call: no persona insert, no profile
update, and no compensating deletion of the identity. -/
theorem C4_holds (emailOk : Bool) (f : SignUpForm) (env : SignUpEnv) (uid m : String)
    (hv : signUpSchemaErrors emailOk f = [])
    (hr : ¬ strTrim f.resumeText = "") (hk : ¬ f.elevenLabsApiKey = "")
    (ha : env.auth = AuthResult.okUser uid) (hg : env.agent = AgentResult.err m) :
    (signUpHandleSubmit emailOk f env).1 = SignUpOutcome.personaErrorShown (errDesc m) ∧
    (signUpHandleSubmit emailOk f env).2 =
      [Call.authSignUp f.email f.password f.firstName f.lastName,
       Call.invokeCreateAgent f.resumeText f.firstName f.lastName f.elevenLabsApiKey] := by
  simp [signUpHandleSubmit, hv, hr, hk, ha, hg]

/-- Witness for C4 at a concrete form and environment. -/
theorem C4_witness :
    (signUpHandleSubmit true ⟨"a@b.c", "password1", "J", "D", "r", "k", "public"⟩
        ⟨AuthResult.okUser ("u1"), AgentResult.err ("boom"), none, none⟩).1 =
      SignUpOutcome.personaErrorShown (errDesc ("boom")) ∧
    (signUpHandleSubmit true ⟨"a@b.c", "password1", "J", "D", "r", "k", "public"⟩
        ⟨AuthResult.okUser ("u1"), AgentResult.err ("boom"), none, none⟩).2 =
      [Call.authSignUp ("a@b.c") ("password1") ("J") ("D"),
       Call.invokeCreateAgent ("r") ("J") ("D") ("k")] :=
  C4_holds true ⟨"a@b.c", "password1", "J", "D", "r", "k", "public"⟩
    ⟨AuthResult.okUser ("u1"), AgentResult.err ("boom"), none, none⟩ ("u1") ("boom")
    (by decide) (by decide) (by decide) rfl rfl

/-- C5: the claim as stated is false.  The non-duplicate branch reports
the provider message verbatim, so a failure whose cause is not the
duplicate condition but whose message happens to equal the
duplicate-notice text is reported identically to a duplicate failure. -/
theorem C5_counterexample :
    dupAuthDisplay ≠ dupAuthMessage ∧
    (signUpHandleSubmit true ⟨"a@b.c", "password1", "J", "D", "r", "k", "public"⟩
        ⟨AuthResult.err dupAuthMessage, AgentResult.ok ("x"), none, none⟩).1 =
      (signUpHandleSubmit true ⟨"a@b.c", "password1", "J", "D", "r", "k", "public"⟩
        ⟨AuthResult.err dupAuthDisplay, AgentResult.ok ("x"), none, none⟩).1 :=
  ⟨by decide, by decide⟩

/-- C5 (amended): when identity creation fails the workflow aborts with a
user-visible error and issues no agent or persona call; the duplicate
case is reported with the dedicated notice, which differs from the
report of every other cause whose provider message is not itself that
notice text. -/
theorem C5_amended (emailOk : Bool) (f : SignUpForm) (env : SignUpEnv) (m : String)
    (hv : signUpSchemaErrors emailOk f = [])
    (hr : ¬ strTrim f.resumeText = "") (hk : ¬ f.elevenLabsApiKey = "")
    (ha : env.auth = AuthResult.err m) :
    (signUpHandleSubmit emailOk f env).1 = SignUpOutcome.signUpFailed (displayAuthError m) ∧
    (signUpHandleSubmit emailOk f env).2 =
      [Call.authSignUp f.email f.password f.firstName f.lastName] ∧
    (m ≠ dupAuthMessage → m ≠ dupAuthDisplay →
      displayAuthError m ≠ displayAuthError dupAuthMessage) := by
  refine ⟨?_, ?_, ?_⟩
  · simp [signUpHandleSubmit, hv, hr, hk, ha]
  · simp [signUpHandleSubmit, hv, hr, hk, ha]
  · intro h1 h2
    simpa [displayAuthError, h1] using h2

/-- Witness for C5 (amended) at a concrete non-duplicate failure. -/
theorem C5_amended_witness :
    (signUpHandleSubmit true ⟨"a@b.c", "password1", "J", "D", "r", "k", "public"⟩
        ⟨AuthResult.err ("network down"), AgentResult.ok ("x"), none, none⟩).1 =
      SignUpOutcome.signUpFailed (displayAuthError ("network down")) ∧
    (signUpHandleSubmit true ⟨"a@b.c", "password1", "J", "D", "r", "k", "public"⟩
        ⟨AuthResult.err ("network down"), AgentResult.ok ("x"), none, none⟩).2 =
      [Call.authSignUp ("a@b.c") ("password1") ("J") ("D")] ∧
    (("network down" : String) ≠ dupAuthMessage → ("network down" : String) ≠ dupAuthDisplay →
      displayAuthError ("network down") ≠ displayAuthError dupAuthMessage) :=
  C5_amended true ⟨"a@b.c", "password1", "J", "D", "r", "k", "public"⟩
    ⟨AuthResult.err ("network down"), AgentResult.ok ("x"), none, none⟩ ("network down")
    (by decide) (by decide) (by decide) rfl

/-- C6: the claim as stated is false.  In a successful authenticated
create-persona run the Persona insert is issued before the Profile
update, not after it: no profile-update call precedes the persona
insert, while the persona insert does precede the profile update. -/
theorem C6_counterexample :
    precedes isProfileUpdateCall isPersonaInsertCall
      (createPersonaHandleSubmit ⟨"r", "k", "private"⟩ (some ("u1"))
        ⟨some ⟨some ("Jane"), some ("Doe")⟩, AgentResult.ok ("a1"), none, none⟩).2 = false ∧
    precedes isPersonaInsertCall isProfileUpdateCall
      (createPersonaHandleSubmit ⟨"r", "k", "private"⟩ (some ("u1"))
        ⟨some ⟨some ("Jane"), some ("Doe")⟩, AgentResult.ok ("a1"), none, none⟩).2 = true :=
  ⟨by decide, by decide⟩

/-- C6 (amended): the authenticated entry point first re-confirms the
profile has non-empty first and last names, failing with the descriptive
message before any agent call when they are absent; otherwise it runs
agent provisioning, link derivation, the Persona insert, and then a
best-effort Profile update that is issued only when the insert
succeeded and whose own failure is ignored. -/
theorem C6_amended (f : CreatePersonaForm) (env : CreatePersonaEnv) (uid fn ln aid : String)
    (hr : ¬ strTrim f.resumeText = "") (hk : ¬ strTrim f.elevenLabsApiKey = "") :
    (profileNamesMissing env.profile = true →
      createPersonaHandleSubmit f (some uid) env =
        (CreateOutcome.errorShown profileNamesMessage, [Call.profileSelect uid])) ∧
    (env.profile = some ⟨some fn, some ln⟩ → ¬ fn = "" → ¬ ln = "" →
      env.agent = AgentResult.ok aid →
      ((createPersonaHandleSubmit f (some uid) env).2 =
        [Call.profileSelect uid,
         Call.invokeCreateAgent f.resumeText fn ln f.elevenLabsApiKey,
         Call.personaInsert
           ⟨uid, decide (f.isPublic = "public"), f.elevenLabsApiKey, aid,
            createPersonaConversationLink aid, createPersonaAvatarUrl uid⟩] ++
        (match env.personaInsertError with
         | none => [Call.profileUpdate uid aid (createPersonaConversationLink aid)]
         | some _ => []) ∧
      (env.personaInsertError = none →
        (createPersonaHandleSubmit f (some uid) env).1 = CreateOutcome.success) ∧
      (∀ m, env.personaInsertError = some m →
        (createPersonaHandleSubmit f (some uid) env).1 = CreateOutcome.errorShown m))) := by
  constructor
  · intro hm
    simp [createPersonaHandleSubmit, hr, hk, hm]
  · intro hp hfn hln hag
    have hm : profileNamesMissing env.profile = false := by
      simp [profileNamesMissing, hp, jsFalsyOptStr, hfn, hln]
    have hfn2 : profileFirstName env.profile = fn := by simp [profileFirstName, hp]
    have hln2 : profileLastName env.profile = ln := by simp [profileLastName, hp]
    refine ⟨?_, ?_, ?_⟩
    · cases hins : env.personaInsertError with
      | none => simp [createPersonaHandleSubmit, hr, hk, hm, hfn2, hln2, hag, hins]
      | some m => simp [createPersonaHandleSubmit, hr, hk, hm, hfn2, hln2, hag, hins]
    · intro hins
      simp [createPersonaHandleSubmit, hr, hk, hm, hfn2, hln2, hag, hins]
    · intro m hins
      simp [createPersonaHandleSubmit, hr, hk, hm, hfn2, hln2, hag, hins]

/-- Witness for C6 (amended): a concrete successful run. -/
theorem C6_amended_witness :
    (createPersonaHandleSubmit ⟨"r", "k", "private"⟩ (some ("u1"))
        ⟨some ⟨some ("Jane"), some ("Doe")⟩, AgentResult.ok ("a1"), none, none⟩).1 =
      CreateOutcome.success :=
  ((C6_amended ⟨"r", "k", "private"⟩
      ⟨some ⟨some ("Jane"), some ("Doe")⟩, AgentResult.ok ("a1"), none, none⟩
      ("u1") ("Jane") ("Doe") ("a1") (by decide) (by decide)).2
    rfl (by decide) (by decide) rfl).2.1 rfl

/-- One row keeps its original is_public value after two successive
visibility updates of which the second writes the original value. -/
theorem updRow_roundTrip (caller pid : String) (v o : Bool) (t1 t2 : Nat) (r : PersonaRow)
    (h : r.id = pid → r.is_public = o) :
    (updRowIsPublic caller pid o t2 (updRowIsPublic caller pid v t1 r)).is_public =
      r.is_public := by
  by_cases hc : r.id = pid ∧ r.user_id = caller
  · have ho := h hc.1
    simp [updRowIsPublic, hc, ho]
  · simp [updRowIsPublic, hc]

/-- C7: the visibility toggle changes the displayed persona only on a
positive store acknowledgment and leaves it untouched on failure, and at
the data layer toggling to some value and then back to the original
value restores every row to its original is_public value. -/
theorem C7_holds (p : AccountPersonaView) (vis : String) (rows : List PersonaRow)
    (caller pid : String) (v o : Bool) (t1 t2 : Nat)
    (h : ∀ r ∈ rows, r.id = pid → r.is_public = o) :
    handleVisibilitySave (some p) vis true =
      (some p, VisibilityToast.errorCouldNotUpdate, some (p.id, decide (vis = "public"))) ∧
    handleVisibilitySave (some p) vis false =
      (some { p with is_public := decide (vis = "public") }, VisibilityToast.saved,
        some (p.id, decide (vis = "public"))) ∧
    (updatePersonaIsPublic caller pid o t2 (updatePersonaIsPublic caller pid v t1 rows)).map
        (fun r => r.is_public) = rows.map (fun r => r.is_public) := by
  refine ⟨rfl, rfl, ?_⟩
  unfold updatePersonaIsPublic
  rw [List.map_map, List.map_map]
  exact List.map_congr_left (fun r hr => updRow_roundTrip caller pid v o t1 t2 r (h r hr))

/-- Witness for C7: a public persona toggled private and then public
again ends with its original stored visibility. -/
theorem C7_witness :
    (updatePersonaIsPublic ("u1") ("p1") true 2
        (updatePersonaIsPublic ("u1") ("p1") false 1
          [⟨"p1", "u1", true, none, none, none, none, 0, 0⟩])).map
        (fun r => r.is_public) = [true] ∧
    handleVisibilitySave (some ⟨"p1", true⟩) ("public") true =
      (some ⟨"p1", true⟩, VisibilityToast.errorCouldNotUpdate, some ("p1", true)) :=
  ⟨((C7_holds ⟨"p1", true⟩ ("public")
        [⟨"p1", "u1", true, none, none, none, none, 0, 0⟩]
        ("u1") ("p1") false true 1 2 (by decide)).2.2).trans rfl,
   (C7_holds ⟨"p1", true⟩ ("public")
        [⟨"p1", "u1", true, none, none, none, none, 0, 0⟩]
        ("u1") ("p1") false true 1 2 (by decide)).1⟩

/-- C8: the claim as stated is false.  A fetched row whose agent_id is
the empty string is non-null, yet the listing filter drops it by
javascript truthiness, so the listing displays no entry for it. -/
theorem C8_counterexample :
    (⟨"p1", none, some ("")⟩ : FetchedPersonaRow).agent_id ≠ none ∧
    (fetchPublicPersonas (Except.ok [⟨"p1", none, some ("")⟩])).1 = [] :=
  ⟨by decide, rfl⟩

/-- C8 (amended): the listing displays exactly the fetched rows whose
agent_id is non-null and non-empty, projected to id, avatar_url and
agent_id with the conversation link derived client-side from the agent
id; a two-row fetch of which one row has a null agent_id displays one
entry, and a failed fetch degrades to an empty list plus a visible
notice. -/
theorem C8_amended (rows : List FetchedPersonaRow) (q : PublicPersonaEntry) (m : String) :
    (q ∈ (fetchPublicPersonas (Except.ok rows)).1 ↔
      ∃ p, p ∈ rows ∧ truthyAgentId p.agent_id = true ∧
        q = ⟨p.id, p.avatar_url, p.agent_id,
             publicListingConversationLink (p.agent_id.getD "")⟩) ∧
    (q ∈ (fetchPublicPersonas (Except.ok rows)).1 →
      ∃ s, q.agent_id = some s ∧ ¬ s = "" ∧
        q.conversation_link = publicListingConversationLink s) ∧
    (fetchPublicPersonas (Except.ok
        [⟨"p1", none, some ("a1")⟩, ⟨"p2", none, none⟩])).1.length = 1 ∧
    fetchPublicPersonas (Except.error m) = ([], true) := by
  have hmem : ∀ q2 : PublicPersonaEntry, q2 ∈ (fetchPublicPersonas (Except.ok rows)).1 ↔
      ∃ p, p ∈ rows ∧ truthyAgentId p.agent_id = true ∧
        q2 = ⟨p.id, p.avatar_url, p.agent_id,
              publicListingConversationLink (p.agent_id.getD "")⟩ := by
    intro q2
    constructor
    · intro hq
      rcases List.mem_map.mp hq with ⟨p, hp, hpe⟩
      rcases List.mem_filter.mp hp with ⟨hpmem, htr⟩
      exact ⟨p, hpmem, htr, hpe.symm⟩
    · rintro ⟨p, hpmem, htr, rfl⟩
      exact List.mem_map.mpr ⟨p, List.mem_filter.mpr ⟨hpmem, htr⟩, rfl⟩
  refine ⟨hmem q, ?_, rfl, rfl⟩
  intro hq
  rcases (hmem q).mp hq with ⟨p, _, htr, rfl⟩
  cases hagent : p.agent_id with
  | none => rw [hagent] at htr; exact absurd htr (by simp [truthyAgentId])
  | some s =>
    rw [hagent] at htr
    have hs : ¬ s = "" := by simpa [truthyAgentId] using htr
    exact ⟨s, by simp [hagent], hs, by simp [hagent]⟩

/-- Witness for C8 (amended): membership, the two-row example, and the
degraded failure case at concrete inputs. -/
theorem C8_amended_witness :
    (⟨"p1", none, some ("a1"), publicListingConversationLink ("a1")⟩ : PublicPersonaEntry) ∈
      (fetchPublicPersonas (Except.ok [⟨"p1", none, some ("a1")⟩])).1 ∧
    (fetchPublicPersonas (Except.ok
        [⟨"p1", none, some ("a1")⟩, ⟨"p2", none, none⟩])).1.length = 1 ∧
    fetchPublicPersonas (Except.error ("boom")) = ([], true) :=
  ⟨(C8_amended [⟨"p1", none, some ("a1")⟩]
      ⟨"p1", none, some ("a1"), publicListingConversationLink ("a1")⟩ ("boom")).1.mpr
      ⟨⟨"p1", none, some ("a1")⟩, by simp, by decide, rfl⟩,
   (C8_amended [⟨"p1", none, some ("a1")⟩]
      ⟨"p1", none, some ("a1"), publicListingConversationLink ("a1")⟩ ("boom")).2.2.1,
   (C8_amended [⟨"p1", none, some ("a1")⟩]
      ⟨"p1", none, some ("a1"), publicListingConversationLink ("a1")⟩ ("boom")).2.2.2⟩

/-- C9: the visibility update is issued for the selected persona id only
and writes only is_public; at the store, a matching owned row changes
exactly is_public and the trigger-refreshed updated_at while every other
column keeps its value, and a row with a different id is unchanged. -/
theorem C9_holds (caller pid : String) (b : Bool) (t : Nat) (r : PersonaRow)
    (p : AccountPersonaView) (vis : String) (ack : Bool) :
    ((updRowIsPublic caller pid b t r).id = r.id ∧
     (updRowIsPublic caller pid b t r).user_id = r.user_id ∧
     (updRowIsPublic caller pid b t r).elevenlabs_api_key = r.elevenlabs_api_key ∧
     (updRowIsPublic caller pid b t r).agent_id = r.agent_id ∧
     (updRowIsPublic caller pid b t r).conversation_link = r.conversation_link ∧
     (updRowIsPublic caller pid b t r).avatar_url = r.avatar_url ∧
     (updRowIsPublic caller pid b t r).created_at = r.created_at) ∧
    (¬ r.id = pid → updRowIsPublic caller pid b t r = r) ∧
    (r.id = pid → r.user_id = caller →
      (updRowIsPublic caller pid b t r).is_public = b ∧
      (updRowIsPublic caller pid b t r).updated_at = t) ∧
    (handleVisibilitySave (some p) vis ack).2.2 = some (p.id, decide (vis = "public")) := by
  refine ⟨?_, ?_, ?_, ?_⟩
  · by_cases hc : r.id = pid ∧ r.user_id = caller <;> simp [updRowIsPublic, hc]
  · intro hid
    simp [updRowIsPublic, hid]
  · intro hid huser
    simp [updRowIsPublic, hid, huser]
  · cases ack <;> rfl

/-- Witness for C9 at a concrete owned row. -/
theorem C9_witness :
    (updRowIsPublic ("u1") ("p1") false 5
        ⟨"p1", "u1", true, some ("k"), none, none, none, 0, 0⟩).elevenlabs_api_key =
      some ("k") ∧
    (updRowIsPublic ("u1") ("p1") false 5
        ⟨"p1", "u1", true, some ("k"), none, none, none, 0, 0⟩).is_public = false ∧
    updRowIsPublic ("u1") ("other") false 5
        ⟨"p2", "u1", true, some ("k"), none, none, none, 0, 0⟩ =
      ⟨"p2", "u1", true, some ("k"), none, none, none, 0, 0⟩ :=
  ⟨((C9_holds ("u1") ("p1") false 5 ⟨"p1", "u1", true, some ("k"), none, none, none, 0, 0⟩
      ⟨"p1", true⟩ ("public") true).1.2.2.1).trans rfl,
   ((C9_holds ("u1") ("p1") false 5 ⟨"p1", "u1", true, some ("k"), none, none, none, 0, 0⟩
      ⟨"p1", true⟩ ("public") true).2.2.1 rfl rfl).1,
   (C9_holds ("u1") ("other") false 5 ⟨"p2", "u1", true, some ("k"), none, none, none, 0, 0⟩
      ⟨"p1", true⟩ ("public") true).2.1 (by decide)⟩

/-- C10: with the visibility selection left at its initial value, the
sign-up entry point inserts the Persona with is_public = true while the
authenticated entry point inserts it with is_public = false, although
the store column default is false. -/
theorem C10_holds (emailOk : Bool) (f : SignUpForm) (env : SignUpEnv)
    (g : CreatePersonaForm) (env2 : CreatePersonaEnv) (uid uid2 aid aid2 fn ln : String)
    (h1 : signUpSchemaErrors emailOk f = []) (h2 : ¬ strTrim f.resumeText = "")
    (h3 : ¬ f.elevenLabsApiKey = "") (h4 : f.isPublic = signUpInitialVisibility)
    (h5 : env.auth = AuthResult.okUser uid) (h6 : env.agent = AgentResult.ok aid)
    (g1 : ¬ strTrim g.resumeText = "") (g2 : ¬ strTrim g.elevenLabsApiKey = "")
    (g3 : g.isPublic = createPersonaInitialVisibility)
    (g4 : env2.profile = some ⟨some fn, some ln⟩) (g5 : ¬ fn = "") (g6 : ¬ ln = "")
    (g7 : env2.agent = AgentResult.ok aid2) :
    (∀ r ∈ insertedRows (signUpHandleSubmit emailOk f env).2, r.is_public = true) ∧
    (∀ r ∈ insertedRows (createPersonaHandleSubmit g (some uid2) env2).2,
      r.is_public = false) ∧
    personasIsPublicDefault = false := by
  refine ⟨?_, ?_, rfl⟩
  · intro r hrr
    cases hins : env.personaInsertError with
    | none =>
      simp [signUpHandleSubmit, h1, h2, h3, h5, h6, hins, insertedRows,
        signUpInitialVisibility, h4] at hrr
      rw [hrr]
    | some m =>
      simp [signUpHandleSubmit, h1, h2, h3, h5, h6, hins, insertedRows,
        signUpInitialVisibility, h4] at hrr
      rw [hrr]
  · intro r hrr
    have hm : profileNamesMissing env2.profile = false := by
      simp [profileNamesMissing, g4, jsFalsyOptStr, g5, g6]
    cases hins : env2.personaInsertError with
    | none =>
      simp [createPersonaHandleSubmit, g1, g2, hm, g7, hins, insertedRows,
        createPersonaInitialVisibility, g3] at hrr
      rw [hrr]
    | some m =>
      simp [createPersonaHandleSubmit, g1, g2, hm, g7, hins, insertedRows,
        createPersonaInitialVisibility, g3] at hrr
      rw [hrr]

/-- Witness for C10: both entry points run with untouched visibility
selections. -/
theorem C10_witness :
    (∀ r ∈ insertedRows (signUpHandleSubmit true
        ⟨"a@b.c", "password1", "J", "D", "r", "k", signUpInitialVisibility⟩
        ⟨AuthResult.okUser ("u1"), AgentResult.ok ("a1"), none, none⟩).2,
      r.is_public = true) ∧
    (∀ r ∈ insertedRows (createPersonaHandleSubmit
        ⟨"r", "k", createPersonaInitialVisibility⟩ (some ("u2"))
        ⟨some ⟨some ("Jane"), some ("Doe")⟩, AgentResult.ok ("a2"), none, none⟩).2,
      r.is_public = false) ∧
    personasIsPublicDefault = false :=
  C10_holds true ⟨"a@b.c", "password1", "J", "D", "r", "k", signUpInitialVisibility⟩
    ⟨AuthResult.okUser ("u1"), AgentResult.ok ("a1"), none, none⟩
    ⟨"r", "k", createPersonaInitialVisibility⟩
    ⟨some ⟨some ("Jane"), some ("Doe")⟩, AgentResult.ok ("a2"), none, none⟩
    ("u1") ("u2") ("a1") ("a2") ("Jane") ("Doe")
    (by decide) (by decide) (by decide) rfl rfl rfl
    (by decide) (by decide) rfl rfl (by decide) (by decide) rfl

end ProPersona
